import Mathlib

/-!
Shallow embedding of the MCP client/manager core of the `shen` repository
(`src/shen/mcp/models.py`, `src/shen/mcp/client.py`, `src/shen/mcp/manager.py`)
together with proofs about the embedded operations.

Conventions:

* Python `dict`s are embedded as insertion-ordered association lists with
  dict-assignment semantics (`dictInsert` replaces in place or appends).
* JSON values are the inductive `JValue`; a config file's content is stored as
  the `JValue` obtained from `json.load` (text-level parse failures fold into
  validation failures).
* Machine integers stay `Int`/`Nat` (Python ints are unbounded, so no wrap).
* Raised exceptions are `Except PyError` results.
-/

namespace Shen

/-- JSON values: the currency of config files and wire frames. -/
inductive JValue where
  | null
  | bool (b : Bool)
  | num (n : Int)
  | str (s : String)
  | arr (xs : List JValue)
  | obj (fields : List (String × JValue))
deriving Repr

/-- Field lookup in a JSON object (Python `dict` access / `in` test). -/
def JValue.lookup : JValue → String → Option JValue
  | .obj fields, k => fields.lookup k
  | _, _ => none

def JValue.asStr : JValue → Option String
  | .str s => some s
  | _ => none

def JValue.asInt : JValue → Option Int
  | .num n => some n
  | _ => none

def JValue.asBool : JValue → Option Bool
  | .bool b => some b
  | _ => none

/-- Entry-wise validation of object fields as strings. -/
def JValue.strEntries : List (String × JValue) → Option (List (String × String))
  | [] => some []
  | (k, v) :: rest =>
    match v.asStr with
    | none => none
    | some s => (strEntries rest).map fun r => (k, s) :: r

/-- Decode a JSON object whose values must all be strings
(pydantic `dict[str, str]`). -/
def JValue.asStrMap : JValue → Option (List (String × String))
  | .obj fields => JValue.strEntries fields
  | _ => none

/-- Item-wise validation of array items as strings. -/
def JValue.strItems : List JValue → Option (List String)
  | [] => some []
  | v :: rest =>
    match v.asStr with
    | none => none
    | some s => (strItems rest).map fun r => s :: r

/-- Decode a JSON array of strings (pydantic `list[str]`). -/
def JValue.asStrList : JValue → Option (List String)
  | .arr xs => JValue.strItems xs
  | _ => none

/-- Python dict assignment `d[k] = v`: replace the value in place when the key
exists, append otherwise. -/
def dictInsert {α : Type} (l : List (String × α)) (k : String) (v : α) :
    List (String × α) :=
  match l with
  | [] => [(k, v)]
  | (k', v') :: rest =>
    if k' = k then (k', v) :: rest else (k', v') :: dictInsert rest k v

/-- `models.py`: `TransportType(str, Enum)` with members STDIO, HTTP, WEBSOCKET. -/
inductive TransportType where
  | stdio
  | http
  | websocket
deriving Repr, DecidableEq

/-- The string value of a `TransportType` member (it is a `str` enum). -/
def TransportType.value : TransportType → String
  | .stdio => "stdio"
  | .http => "http"
  | .websocket => "websocket"

/-- Pydantic validation of a `TransportType` from its string value. -/
def TransportType.parse (s : String) : Option TransportType :=
  if s = "stdio" then some .stdio
  else if s = "http" then some .http
  else if s = "websocket" then some .websocket
  else none

/-- `models.py` `MCPServiceConfig`: a configured remote service, with the
pydantic field defaults of the source. -/
structure MCPServiceConfig where
  name : String
  description : String
  transport : TransportType
  endpoint : String
  timeout : Int := 30
  retry_count : Int := 3
  enabled : Bool := true
  auth : Option (List (String × String)) := none
  headers : Option (List (String × String)) := none
  args : Option (List String) := none
deriving Repr, DecidableEq

/-- Encoding of an optional `dict[str, str]` field by `model_dump` (Python
`None` becomes JSON null). -/
def strMapDump : Option (List (String × String)) → JValue
  | none => .null
  | some m => .obj (m.map fun kv => (kv.1, .str kv.2))

/-- Encoding of the optional `list[str]` field by `model_dump`. -/
def strListDump : Option (List String) → JValue
  | none => .null
  | some xs => .arr (xs.map JValue.str)

/-- `MCPServiceConfig.model_dump()` as serialized by `json.dump`: every field
is emitted; the `str` enum serializes as its value. -/
def MCPServiceConfig.model_dump (c : MCPServiceConfig) : JValue :=
  .obj [("name", .str c.name),
        ("description", .str c.description),
        ("transport", .str c.transport.value),
        ("endpoint", .str c.endpoint),
        ("timeout", .num c.timeout),
        ("retry_count", .num c.retry_count),
        ("enabled", .bool c.enabled),
        ("auth", strMapDump c.auth),
        ("headers", strMapDump c.headers),
        ("args", strListDump c.args)]

/-- A required field: absent or ill-typed fails validation. -/
def reqField {α : Type} (j : JValue) (k : String) (f : JValue → Option α) :
    Option α :=
  (j.lookup k).bind f

/-- A field with a default: absent uses the default, present must decode. -/
def defField {α : Type} (j : JValue) (k : String) (f : JValue → Option α)
    (d : α) : Option α :=
  match j.lookup k with
  | none => some d
  | some v => f v

/-- An `Optional[...]` field: absent or null gives `None`, otherwise decode. -/
def optField {α : Type} (j : JValue) (k : String) (f : JValue → Option α) :
    Option (Option α) :=
  match j.lookup k with
  | none => some none
  | some .null => some none
  | some v => (f v).map some

/-- `MCPServiceConfig.model_validate`: structural pydantic validation of a JSON
object into a config (required fields must be present and well-typed; defaulted
and optional fields follow the model's declarations). -/
def MCPServiceConfig.model_validate (j : JValue) : Option MCPServiceConfig := do
  let name ← reqField j "name" JValue.asStr
  let description ← reqField j "description" JValue.asStr
  let transport ← (reqField j "transport" JValue.asStr).bind TransportType.parse
  let endpoint ← reqField j "endpoint" JValue.asStr
  let timeout ← defField j "timeout" JValue.asInt 30
  let retry_count ← defField j "retry_count" JValue.asInt 3
  let enabled ← defField j "enabled" JValue.asBool true
  let auth ← optField j "auth" JValue.asStrMap
  let headers ← optField j "headers" JValue.asStrMap
  let args ← optField j "args" JValue.asStrList
  return { name := name, description := description, transport := transport,
           endpoint := endpoint, timeout := timeout, retry_count := retry_count,
           enabled := enabled, auth := auth, headers := headers, args := args }

theorem transportType_parse_value (t : TransportType) :
    TransportType.parse t.value = some t := by
  cases t <;> rfl

theorem strEntries_dump (m : List (String × String)) :
    JValue.strEntries (m.map fun kv => (kv.1, JValue.str kv.2)) = some m := by
  induction m with
  | nil => rfl
  | cons kv rest ih => simp [JValue.strEntries, JValue.asStr, ih]

theorem strItems_dump (xs : List String) :
    JValue.strItems (xs.map JValue.str) = some xs := by
  induction xs with
  | nil => rfl
  | cons x rest ih => simp [JValue.strItems, JValue.asStr, ih]

/-- Validation is a left inverse of serialization on every config value. -/
theorem model_validate_model_dump (c : MCPServiceConfig) :
    MCPServiceConfig.model_validate c.model_dump = some c := by
  obtain ⟨name, description, transport, endpoint, timeout, retry_count,
    enabled, auth, headers, args⟩ := c
  cases auth <;> cases headers <;> cases args <;>
    simp [MCPServiceConfig.model_dump, MCPServiceConfig.model_validate,
      reqField, defField, optField, JValue.lookup, List.lookup, JValue.asStr,
      JValue.asInt, JValue.asBool, JValue.asStrMap, JValue.asStrList,
      strMapDump, strListDump, transportType_parse_value,
      strEntries_dump, strItems_dump]

/-! ### Injectivity of the decimal representation used for request ids

`client.py` keys the pending-request map by `str(self._request_id)`; the Lean
counterpart of Python's `str(n)` on a natural number is `Nat.repr`. We prove it
injective by exhibiting a left inverse that folds the decimal digits back into
the number. -/

/-- Numeric value of a decimal digit character produced by `Nat.digitChar`. -/
def digitVal (c : Char) : Nat := c.toNat - 48

/-- Value of a most-significant-first decimal digit string. -/
def digitsVal (l : List Char) : Nat := l.foldl (fun a c => 10 * a + digitVal c) 0

theorem digitVal_digitChar (m : Nat) (h : m < 10) :
    digitVal (Nat.digitChar m) = m := by
  interval_cases m <;> rfl

theorem digitsVal_append (l : List Char) (c : Char) :
    digitsVal (l ++ [c]) = 10 * digitsVal l + digitVal c := by
  simp [digitsVal, List.foldl_append]

theorem toDigitsCore_shift (b f n : Nat) (acc : List Char) :
    Nat.toDigitsCore b f n acc = Nat.toDigitsCore b f n [] ++ acc := by
  induction f generalizing n acc with
  | zero => simp [Nat.toDigitsCore]
  | succ f ih =>
    simp only [Nat.toDigitsCore]
    by_cases h : n / b = 0
    · simp [h]
    · simp only [if_neg h]
      rw [ih (n / b) (Nat.digitChar (n % b) :: acc),
        ih (n / b) [Nat.digitChar (n % b)], List.append_assoc]
      rfl

theorem digitsVal_toDigitsCore (f n : Nat) (h : n < f) :
    digitsVal (Nat.toDigitsCore 10 f n []) = n := by
  induction f generalizing n with
  | zero => omega
  | succ f ih =>
    simp only [Nat.toDigitsCore]
    by_cases h0 : n / 10 = 0
    · have hn : n < 10 := by omega
      simp [h0, digitsVal, Nat.mod_eq_of_lt hn, digitVal_digitChar n hn]
    · simp only [if_neg h0]
      rw [toDigitsCore_shift, digitsVal_append,
        ih (n / 10) (by omega), digitVal_digitChar (n % 10) (by omega)]
      omega

theorem digitsVal_repr (n : Nat) : digitsVal (Nat.repr n).data = n := by
  have : (Nat.repr n).data = Nat.toDigitsCore 10 (n + 1) n [] := rfl
  rw [this]
  exact digitsVal_toDigitsCore (n + 1) n (Nat.lt_succ_self n)

theorem natRepr_injective : Function.Injective Nat.repr := by
  intro a b hab
  have : digitsVal (Nat.repr a).data = digitsVal (Nat.repr b).data := by rw [hab]
  rwa [digitsVal_repr, digitsVal_repr] at this

/-! ### Wire messages (`models.py`) and the inbound decoder (`client.py`) -/

/-- A JSON-RPC id: `Optional[Union[str, int]]` in `models.py`. -/
inductive MCPId where
  | str (s : String)
  | num (n : Int)
deriving Repr, DecidableEq

def JValue.asId : JValue → Option MCPId
  | .str s => some (.str s)
  | .num n => some (.num n)
  | _ => none

/-- Payload objects (`dict[str, Any]`) are JSON objects. -/
def JValue.asObjFields : JValue → Option (List (String × JValue))
  | .obj fields => some fields
  | _ => none

/-- `models.py` `MCPRequest`. -/
structure MCPRequest where
  jsonrpc : String := "2.0"
  id : Option MCPId := none
  method : String
  params : Option (List (String × JValue)) := none
deriving Repr

/-- `models.py` `MCPResponse`. -/
structure MCPResponse where
  jsonrpc : String := "2.0"
  id : Option MCPId := none
  result : Option (List (String × JValue)) := none
  error : Option (List (String × JValue)) := none
deriving Repr

/-- `models.py` `MCPNotification` (declared in the model layer; note that the
inbound decoder below never constructs it). -/
structure MCPNotification where
  jsonrpc : String := "2.0"
  method : String
  params : Option (List (String × JValue)) := none
deriving Repr

/-- `models.py` `MCPServerInfo`. -/
structure MCPServerInfo where
  name : String
  version : String
  protocol_version : String := "2024-11-05"
  capabilities : List (String × JValue) := []
deriving Repr

def MCPRequest.model_validate (j : JValue) : Option MCPRequest := do
  let jsonrpc ← defField j "jsonrpc" JValue.asStr "2.0"
  let id ← optField j "id" JValue.asId
  let method ← reqField j "method" JValue.asStr
  let params ← optField j "params" JValue.asObjFields
  return { jsonrpc := jsonrpc, id := id, method := method, params := params }

def MCPResponse.model_validate (j : JValue) : Option MCPResponse := do
  let jsonrpc ← defField j "jsonrpc" JValue.asStr "2.0"
  let id ← optField j "id" JValue.asId
  let result ← optField j "result" JValue.asObjFields
  let error ← optField j "error" JValue.asObjFields
  return { jsonrpc := jsonrpc, id := id, result := result, error := error }

def idDump : Option MCPId → JValue
  | none => .null
  | some (.str s) => .str s
  | some (.num n) => .num n

def paramsDump : Option (List (String × JValue)) → JValue
  | none => .null
  | some fields => .obj fields

/-- `MCPRequest.model_dump()` as posted or framed by the transports. -/
def MCPRequest.model_dump (r : MCPRequest) : JValue :=
  .obj [("jsonrpc", .str r.jsonrpc), ("id", idDump r.id),
        ("method", .str r.method), ("params", paramsDump r.params)]

/-- What a decoded inbound frame can be, covering the three envelope classes of
`models.py`. -/
inductive DecodedMessage where
  | request (q : MCPRequest)
  | response (r : MCPResponse)
  | notification (n : MCPNotification)
deriving Repr

/-- The shape of a decoded message, for stating decoder properties. -/
inductive MessageForm where
  | requestForm
  | responseForm
  | notificationForm
deriving Repr, DecidableEq

def DecodedMessage.form : DecodedMessage → MessageForm
  | .request _ => .requestForm
  | .response _ => .responseForm
  | .notification _ => .notificationForm

/-- `WebSocketTransport.receive_message`, lines 138-144 of `client.py`: after
`json.loads`, a frame containing a `result` or `error` key validates as an
`MCPResponse`; any other frame validates as an `MCPRequest`. Validation
failure (an exception in the source) is `none`. -/
def WebSocketTransport.receive_message_decode (j : JValue) :
    Option DecodedMessage :=
  if (j.lookup "result").isSome || (j.lookup "error").isSome then
    (MCPResponse.model_validate j).map DecodedMessage.response
  else
    (MCPRequest.model_validate j).map DecodedMessage.request

/-! ### Exceptions and transport construction -/

/-- Raised exceptions: `MCPClientError`, `NotImplementedError`, and everything
else (httpx/websockets/asyncio errors). -/
inductive PyError where
  | mcpClientError (msg : String)
  | notImplementedError (msg : String)
  | otherError (msg : String)
deriving Repr, DecidableEq

def PyError.msg : PyError → String
  | .mcpClientError m => m
  | .notImplementedError m => m
  | .otherError m => m

/-- The concrete transport classes defined in `client.py`. There are exactly
two; no stdio/process transport class exists in the source. -/
inductive MCPTransportImpl where
  | httpTransport (config : MCPServiceConfig)
  | webSocketTransport (config : MCPServiceConfig)
deriving Repr

def MCPTransportImpl.kind : MCPTransportImpl → TransportType
  | .httpTransport _ => .http
  | .webSocketTransport _ => .websocket

/-- `MCPClient._create_transport`, lines 162-169: HTTP and WebSocket dispatch
to their classes, anything else raises `MCPClientError`. -/
def MCPClient.create_transport (config : MCPServiceConfig) :
    Except PyError MCPTransportImpl :=
  if config.transport = TransportType.http then
    .ok (.httpTransport config)
  else if config.transport = TransportType.websocket then
    .ok (.webSocketTransport config)
  else
    .error (.mcpClientError ("Unsupported transport: " ++ config.transport.value))

/-! ### The client's correlation state (`client.py`, `MCPClient`)

`send_request` (lines 225-252) allocates an id, registers an
`asyncio.Future` in `self._pending_requests`, sends, then awaits the future
with `asyncio.wait_for(..., timeout)`.  The state below separates the future
objects (held by their waiting callers even after removal from the dict) from
the dict that maps ids to them.  Each `ClientOp` is one of the await-separated
atomic segments of `client.py` that mutates this state; the inventory is
exhaustive — in particular, no statement anywhere in `client.py` calls
`Future.set_result` or `Future.set_exception`, so no op resolves a future. -/

/-- The single-resolution slot of an `asyncio.Future`. -/
inductive FutureVal where
  | waiting
  | resolvedResult (r : MCPResponse)
  | resolvedError (msg : String)
deriving Repr

def FutureVal.isWaiting : FutureVal → Bool
  | .waiting => true
  | _ => false

structure ClientState where
  config : MCPServiceConfig
  /-- `transport.is_connected`: HTTP client object / websocket present. -/
  transportConnected : Bool
  /-- `self.server_info`. -/
  server_info : Option MCPServerInfo
  /-- `self._request_id`, starts at 0 (line 159). -/
  request_id : Nat
  /-- Every future ever created by `send_request`, keyed by request id;
  callers keep their reference even after the dict entry is dropped. -/
  futures : List (String × FutureVal)
  /-- The key set of `self._pending_requests` in insertion order. -/
  pending : List String
  /-- History variable (not a field of the Python object): every id ever
  handed out by `_next_request_id` inside `send_request`, newest first. -/
  issued : List String
deriving Repr

/-- `MCPClient.__init__`, lines 155-160. -/
def initClient (config : MCPServiceConfig) : ClientState :=
  { config := config, transportConnected := false, server_info := none,
    request_id := 0, futures := [], pending := [], issued := [] }

/-- `MCPClient.is_connected`, lines 302-305. -/
def ClientState.is_connected (s : ClientState) : Bool := s.transportConnected

/-- `MCPClient._next_request_id`, lines 220-223: increment then stringify. -/
def MCPClient.next_request_id (s : ClientState) : ClientState × String :=
  ({ s with request_id := s.request_id + 1 }, Nat.repr (s.request_id + 1))

/-- `send_request` up to the transport send (lines 229-239): allocate the id,
create the future, store it in `_pending_requests`. -/
def MCPClient.send_request_register (s : ClientState) : ClientState × String :=
  let p := MCPClient.next_request_id s
  ({ p.1 with futures := (p.2, FutureVal.waiting) :: p.1.futures,
              pending := p.2 :: p.1.pending,
              issued := p.2 :: p.1.issued }, p.2)

def futureLookup (s : ClientState) (rid : String) : Option FutureVal :=
  s.futures.lookup rid

/-- The possible outcomes of `send_request`. -/
inductive RequestOutcome where
  | success (r : MCPResponse)
  | failure (e : PyError)
deriving Repr

/-- The tail of `send_request` (lines 241-252): `asyncio.wait_for` on the
caller's future.  A future that is never resolved makes `wait_for` raise
`asyncio.TimeoutError`, which the source converts to
`MCPClientError("Request timeout: <method>")` after popping the id (lines
247-249); a future failed by `set_exception` would surface through the generic
handler (lines 250-252); a resolved future returns the response without
popping the id (lines 245-246). -/
def MCPClient.send_request_finish (s : ClientState) (rid method : String) :
    ClientState × RequestOutcome :=
  match futureLookup s rid with
  | some (FutureVal.resolvedResult r) => (s, .success r)
  | some (FutureVal.resolvedError m) =>
    ({ s with pending := s.pending.erase rid },
     .failure (.mcpClientError ("Request failed: " ++ m)))
  | _ =>
    ({ s with pending := s.pending.erase rid },
     .failure (.mcpClientError ("Request timeout: " ++ method)))

/-- `MCPClient.disconnect`, lines 184-189: close the transport, drop
`server_info`, `self._pending_requests.clear()`.  The futures themselves are
not touched: no error is set on them. -/
def MCPClient.disconnect (s : ClientState) : ClientState :=
  { s with transportConnected := false, server_info := none, pending := [] }

/-- `_initialize`, lines 213-215: `server_info` is stored only from the
`result` of a successfully resolved `initialize` response. -/
def MCPClient.set_server_info (s : ClientState) (rid : String)
    (info : MCPServerInfo) : ClientState :=
  match futureLookup s rid with
  | some (FutureVal.resolvedResult _) => { s with server_info := some info }
  | _ => s

/-- The await-separated state-mutating segments of `client.py`, one constructor
per source location (see each case of `ClientState.applyOp`). -/
inductive ClientOp where
  /-- `transport.connect()` succeeded (line 174). -/
  | transportConnect
  /-- lines 229-239 of `send_request`. -/
  | register
  /-- lines 241-252 of `send_request`: the awaited future is consumed. -/
  | finish (rid method : String)
  /-- lines 250-252 when `transport.send_message` itself raised: pop the id. -/
  | sendError (rid : String)
  /-- lines 213-215 of `_initialize`. -/
  | setInfo (rid : String) (info : MCPServerInfo)
  /-- lines 184-189. -/
  | close

def ClientState.applyOp (s : ClientState) : ClientOp → ClientState
  | .transportConnect => { s with transportConnected := true }
  | .register => (MCPClient.send_request_register s).1
  | .finish rid method => (MCPClient.send_request_finish s rid method).1
  | .sendError rid => { s with pending := s.pending.erase rid }
  | .setInfo rid info => MCPClient.set_server_info s rid info
  | .close => MCPClient.disconnect s

/-- Any interleaving of client operations, run from a start state. -/
def ClientState.applyOps (s : ClientState) (ops : List ClientOp) : ClientState :=
  ops.foldl ClientState.applyOp s

/-- True when every future the client ever created is still unresolved. -/
def clientAllWaiting (s : ClientState) : Bool :=
  s.futures.all fun p => p.2.isWaiting

/-! ### The HTTP transport (`client.py`, `HTTPTransport`) -/

/-- The reply of one HTTP round trip (`httpx` response: status and body). -/
structure HTTPReply where
  status : Nat
  body : JValue
deriving Repr

/-- `HTTPTransport.send_message`, lines 85-91: POST the dumped message, call
`raise_for_status()`, and return `None` — the reply body is discarded.  The
peer is the `post` function. -/
def HTTPTransport.send_message (connected : Bool) (post : JValue → HTTPReply)
    (msg : JValue) : Except PyError Unit :=
  if connected = false then
    .error (.mcpClientError "Not connected")
  else if 400 ≤ (post msg).status then
    .error (.otherError "HTTPStatusError")
  else
    .ok ()

/-- `HTTPTransport.receive_message`, lines 93-95: unconditionally raises
`NotImplementedError`. -/
def HTTPTransport.receive_message : Except PyError DecodedMessage :=
  .error (.notImplementedError "HTTP transport doesn't support receiving messages")

/-- `send_request` on an HTTP-transport client, end to end: register (lines
229-239), `transport.send_message` (line 242, the full HTTP round trip), then
await the future (lines 245-252). -/
def MCPClient.send_request_http (s : ClientState) (method : String)
    (params : Option (List (String × JValue))) (post : JValue → HTTPReply) :
    ClientState × RequestOutcome :=
  let reg := MCPClient.send_request_register s
  let req : MCPRequest := { id := some (MCPId.str reg.2), method := method,
                            params := params }
  match HTTPTransport.send_message s.transportConnected post req.model_dump with
  | .error e =>
    ({ reg.1 with pending := reg.1.pending.erase reg.2 },
     RequestOutcome.failure (.mcpClientError ("Request failed: " ++ e.msg)))
  | .ok _ => MCPClient.send_request_finish reg.1 reg.2 method

/-! ### The service manager (`manager.py`)

The config directory is a key-value store of file name to parsed JSON content
(`json.load` of the file); `*.json` is every stored file, since the manager
itself only ever writes `<name>.json` files. -/

structure FileSystem where
  dirExists : Bool
  files : List (String × JValue)
deriving Repr

structure ManagerState where
  /-- `self.services`. -/
  services : List (String × MCPServiceConfig)
  /-- `self.clients`. -/
  clients : List (String × ClientState)
deriving Repr

/-- `MCPManager.__init__`, lines 18-27 (the config-dir path is external). -/
def freshManager : ManagerState := { services := [], clients := [] }

/-- The example configuration of `_create_example_config`, lines 54-61. -/
def example_config : MCPServiceConfig :=
  { name := "example-filesystem",
    description := "Example filesystem MCP server",
    transport := TransportType.stdio,
    endpoint := "npx @modelcontextprotocol/server-filesystem /path/to/directory",
    args := some ["npx", "@modelcontextprotocol/server-filesystem", "/tmp"],
    enabled := false }

/-- `MCPManager._create_example_config`, lines 52-67: writes
`example-filesystem.json`; touches no in-memory state. -/
def MCPManager.create_example_config (fs : FileSystem) : FileSystem :=
  { fs with files := dictInsert fs.files "example-filesystem.json" example_config.model_dump }

/-- `MCPManager.load_services`, lines 29-50.  An absent directory is created
and seeded; an empty directory is seeded; both return before touching
`self.services`.  Otherwise each file is validated into `self.services`,
skipping files that fail. -/
def MCPManager.load_services (fs : FileSystem) (m : ManagerState) :
    FileSystem × ManagerState :=
  if fs.dirExists = false then
    (MCPManager.create_example_config { fs with dirExists := true }, m)
  else if fs.files.isEmpty then
    (MCPManager.create_example_config fs, m)
  else
    (fs, { m with services := fs.files.foldl (fun svcs file =>
        match MCPServiceConfig.model_validate file.2 with
        | some config => dictInsert svcs config.name config
        | none => svcs) m.services })

/-- `MCPManager.add_service`, lines 69-85: store in memory, ensure the
directory, write `<name>.json`. -/
def MCPManager.add_service (fs : FileSystem) (m : ManagerState)
    (config : MCPServiceConfig) : FileSystem × ManagerState :=
  ({ dirExists := true,
     files := dictInsert fs.files (config.name ++ ".json") config.model_dump },
   { m with services := dictInsert m.services config.name config })

/-- `MCPManager.list_services`, lines 118-124. -/
def MCPManager.list_services (m : ManagerState) : List MCPServiceConfig :=
  m.services.map Prod.snd

/-- `MCPManager.get_service`, lines 126-135. -/
def MCPManager.get_service (m : ManagerState) (name : String) :
    Option MCPServiceConfig :=
  m.services.lookup name

/-- `MCPClient.connect`, lines 171-182: `transport.connect()` plus the
`_initialize` handshake, abstracted as one environment outcome; whatever it
raises is re-raised wrapped as `MCPClientError("Connection failed: ...")`. -/
def MCPClient.connect (underlying : Except PyError Unit) : Except PyError Unit :=
  match underlying with
  | .ok () => .ok ()
  | .error e => .error (.mcpClientError ("Connection failed: " ++ e.msg))

/-- Observable side effects of `connect_service`, for counting attempts. -/
inductive ConnectEffect where
  | constructClient (name : String)
  | connectAttempt (name : String)
deriving Repr, DecidableEq

def connectAttempts (effs : List ConnectEffect) : Nat :=
  (effs.filter fun e => match e with
    | .connectAttempt _ => true
    | _ => false).length

/-- The client recorded by `connect_service` after a successful `connect()`
(the internal counters of the abstracted handshake are not tracked). -/
def mkConnectedClient (config : MCPServiceConfig) : ClientState :=
  { initClient config with transportConnected := true }

/-- `MCPManager.connect_service`, lines 137-163.  `attempts k` is the
environment outcome of the k-th call to `client.connect()`; the body calls it
exactly once, with k = 1.  The `except MCPClientError` clause converts that
error into a `False` return; any other exception would propagate
(`.error`). -/
def MCPManager.connect_service (m : ManagerState) (name : String)
    (attempts : Nat → Except PyError Unit) :
    Except PyError (ManagerState × Bool × List ConnectEffect) :=
  match m.clients.lookup name with
  | some c => .ok (m, c.is_connected, [])
  | none =>
    match m.services.lookup name with
    | none => .ok (m, false, [])
    | some config =>
      if config.enabled = false then
        .ok (m, false, [])
      else
        match MCPClient.create_transport config with
        | .error (.mcpClientError _) =>
          .ok (m, false, [.constructClient name])
        | .error e => .error e
        | .ok _ =>
          match MCPClient.connect (attempts 1) with
          | .ok () =>
            .ok ({ m with clients := dictInsert m.clients name (mkConnectedClient config) },
                 true, [.constructClient name, .connectAttempt name])
          | .error (.mcpClientError _) =>
            .ok (m, false, [.constructClient name, .connectAttempt name])
          | .error e => .error e

/-! ### Association-list helper lemmas -/

theorem lookup_mem {β : Type} {l : List (String × β)} {k : String} {v : β}
    (h : l.lookup k = some v) : (k, v) ∈ l := by
  induction l with
  | nil => simp [List.lookup] at h
  | cons p rest ih =>
    obtain ⟨k', v'⟩ := p
    simp only [List.lookup] at h
    cases hbe : k == k' with
    | true =>
      rw [hbe] at h
      simp only [Option.some.injEq] at h
      subst h
      exact (eq_of_beq hbe) ▸ List.mem_cons_self _ _
    | false =>
      rw [hbe] at h
      exact List.mem_cons_of_mem _ (ih h)

theorem lookup_dictInsert {β : Type} (l : List (String × β)) (k : String)
    (v : β) : (dictInsert l k v).lookup k = some v := by
  induction l with
  | nil => simp [dictInsert, List.lookup]
  | cons p rest ih =>
    obtain ⟨k', v'⟩ := p
    by_cases hk : k' = k
    · subst hk
      simp [dictInsert, List.lookup]
    · simp only [dictInsert, if_neg hk, List.lookup]
      have : (k == k') = false := by
        simp [hk]
        intro hc
        exact hk hc.symm
      rw [this]
      exact ih

/-! ### No statement of `client.py` ever resolves a future -/

theorem applyOp_futures (s : ClientState) (op : ClientOp) :
    (s.applyOp op).futures = s.futures ∨
    (s.applyOp op).futures =
      (Nat.repr (s.request_id + 1), FutureVal.waiting) :: s.futures := by
  cases op with
  | transportConnect => exact Or.inl rfl
  | register => exact Or.inr rfl
  | finish rid method =>
    refine Or.inl ?_
    simp only [ClientState.applyOp, MCPClient.send_request_finish]
    cases hf : futureLookup s rid with
    | none => rfl
    | some v => cases v <;> simp
  | sendError rid => exact Or.inl rfl
  | setInfo rid info =>
    refine Or.inl ?_
    simp only [ClientState.applyOp, MCPClient.set_server_info]
    cases hf : futureLookup s rid with
    | none => rfl
    | some v => cases v <;> simp
  | close => exact Or.inl rfl

theorem clientAllWaiting_applyOp (s : ClientState) (op : ClientOp)
    (h : clientAllWaiting s = true) :
    clientAllWaiting (s.applyOp op) = true := by
  rcases applyOp_futures s op with he | he <;>
    simp only [clientAllWaiting] at h ⊢ <;> rw [he]
  · exact h
  · simpa [FutureVal.isWaiting] using h

theorem clientAllWaiting_applyOps (ops : List ClientOp) (s : ClientState)
    (h : clientAllWaiting s = true) :
    clientAllWaiting (s.applyOps ops) = true := by
  induction ops generalizing s with
  | nil => exact h
  | cons op rest ih => exact ih _ (clientAllWaiting_applyOp s op h)

theorem allWaiting_finish_timeout (s : ClientState) (rid method : String)
    (h : clientAllWaiting s = true) :
    (MCPClient.send_request_finish s rid method).2 =
      RequestOutcome.failure
        (PyError.mcpClientError ("Request timeout: " ++ method)) := by
  simp only [MCPClient.send_request_finish]
  cases hf : futureLookup s rid with
  | none => rfl
  | some v =>
    cases v with
    | waiting => rfl
    | resolvedResult r =>
      exfalso
      have hv := lookup_mem hf
      simp only [clientAllWaiting, List.all_eq_true] at h
      have := h _ hv
      simp [FutureVal.isWaiting] at this
    | resolvedError msg =>
      exfalso
      have hv := lookup_mem hf
      simp only [clientAllWaiting, List.all_eq_true] at h
      have := h _ hv
      simp [FutureVal.isWaiting] at this

/-! ### The id counter and the issued-id history -/

/-- Invariant tying the issued-id history to the counter, with the pending key
set always drawn from the history. -/
def idInvariant (s : ClientState) : Prop :=
  s.issued = ((List.range' 1 s.request_id).map Nat.repr).reverse ∧
  s.pending.Sublist s.issued

theorem idInvariant_applyOp (s : ClientState) (op : ClientOp)
    (h : idInvariant s) : idInvariant (s.applyOp op) := by
  obtain ⟨hiss, hpend⟩ := h
  cases op with
  | transportConnect => exact ⟨hiss, hpend⟩
  | register =>
    constructor
    · show Nat.repr (s.request_id + 1) :: s.issued =
        ((List.range' 1 (s.request_id + 1)).map Nat.repr).reverse
      rw [hiss, List.range'_concat, List.map_append, List.reverse_append]
      simp [Nat.add_comm]
    · exact hpend.cons₂ _
  | finish rid method =>
    have hfu : (s.applyOp (ClientOp.finish rid method)).issued = s.issued ∧
        (s.applyOp (ClientOp.finish rid method)).request_id = s.request_id ∧
        (s.applyOp (ClientOp.finish rid method)).pending = s.pending.erase rid ∨
        (s.applyOp (ClientOp.finish rid method)) = s := by
      simp only [ClientState.applyOp, MCPClient.send_request_finish]
      cases hf : futureLookup s rid with
      | none => exact Or.inl ⟨rfl, rfl, rfl⟩
      | some v => cases v <;> simp
    rcases hfu with ⟨h1, h2, h3⟩ | heq
    · rw [idInvariant, h1, h2, h3]
      exact ⟨hiss, ((s.pending.erase_sublist rid).trans hpend)⟩
    · rw [heq]; exact ⟨hiss, hpend⟩
  | sendError rid =>
    exact ⟨hiss, (s.pending.erase_sublist rid).trans hpend⟩
  | setInfo rid info =>
    have : (s.applyOp (ClientOp.setInfo rid info)).issued = s.issued ∧
        (s.applyOp (ClientOp.setInfo rid info)).request_id = s.request_id ∧
        (s.applyOp (ClientOp.setInfo rid info)).pending = s.pending := by
      simp only [ClientState.applyOp, MCPClient.set_server_info]
      cases hf : futureLookup s rid with
      | none => exact ⟨rfl, rfl, rfl⟩
      | some v => cases v <;> simp
    rw [idInvariant, this.1, this.2.1, this.2.2]
    exact ⟨hiss, hpend⟩
  | close => exact ⟨hiss, List.nil_sublist _⟩

theorem idInvariant_applyOps (ops : List ClientOp) (s : ClientState)
    (h : idInvariant s) : idInvariant (s.applyOps ops) := by
  induction ops generalizing s with
  | nil => exact h
  | cons op rest ih => exact ih _ (idInvariant_applyOp s op h)

/-! ### Concrete fixtures used by the claim theorems -/

def httpConfig : MCPServiceConfig :=
  { name := "http-svc", description := "sample http service",
    transport := TransportType.http, endpoint := "http://localhost:8000" }

def wsConfig : MCPServiceConfig :=
  { name := "ws-svc", description := "sample websocket service",
    transport := TransportType.websocket, endpoint := "ws://localhost:9000" }

/-- A websocket client that connected its transport and has one request
(id "1") in flight. -/
def wsSampleState : ClientState :=
  (initClient wsConfig).applyOps [ClientOp.transportConnect, ClientOp.register]

/-- An HTTP client whose transport is connected. -/
def httpReadyState : ClientState :=
  { initClient httpConfig with transportConnected := true }

/-- An HTTP peer that answers every POST with status 200 and a correct
JSON-RPC reply for request id "1". -/
def c4Post : JValue → HTTPReply := fun _ =>
  { status := 200,
    body := JValue.obj [("jsonrpc", JValue.str "2.0"), ("id", JValue.str "1"),
                        ("result", JValue.obj [])] }

/-- A frame with a `method` and no `id`: a notification on the wire. -/
def notifFrame : JValue :=
  JValue.obj [("jsonrpc", JValue.str "2.0"), ("method", JValue.str "ping")]

def isNotificationDecode (r : Option DecodedMessage) : Bool :=
  match r with
  | some (.notification _) => true
  | _ => false

/-! ### Claim theorems -/

/-- C1: the claim says each concurrently-issued request resolves with the
response whose id matches its own, via a background receive loop started on
entering Ready.  The code contains no receive loop and no statement that
resolves a pending future: over every interleaving of the client's operations,
every future the client ever created is still unresolved, and therefore every
`send_request` wait ends in the timeout error, never in a response. -/
theorem c1_requests_never_resolve (cfg : MCPServiceConfig)
    (ops : List ClientOp) (rid method : String) :
    clientAllWaiting ((initClient cfg).applyOps ops) = true ∧
    (MCPClient.send_request_finish ((initClient cfg).applyOps ops) rid
        method).2 =
      RequestOutcome.failure
        (PyError.mcpClientError ("Request timeout: " ++ method)) := by
  have hw : clientAllWaiting ((initClient cfg).applyOps ops) = true :=
    clientAllWaiting_applyOps ops (initClient cfg) rfl
  exact ⟨hw, allWaiting_finish_timeout _ rid method hw⟩

/-- C3: `disconnect()` empties the pending map, drops `server_info`, and
leaves the transport disconnected, but it does not touch the futures the
waiting callers hold; concretely, the caller of the outstanding request "1"
still ends with the timeout-flavoured `MCPClientError`, not a
connection-closed error. -/
theorem c3_disconnect_drops_pending_without_failing (s : ClientState) :
    (MCPClient.disconnect s).pending = [] ∧
    (MCPClient.disconnect s).futures = s.futures ∧
    (MCPClient.disconnect s).server_info = none ∧
    (MCPClient.disconnect s).is_connected = false ∧
    futureLookup (MCPClient.disconnect wsSampleState) "1" =
      some FutureVal.waiting ∧
    (MCPClient.send_request_finish (MCPClient.disconnect wsSampleState) "1"
        "tools/call").2 =
      RequestOutcome.failure
        (PyError.mcpClientError "Request timeout: tools/call") :=
  ⟨rfl, rfl, rfl, rfl, rfl, rfl⟩

/-- C4: the HTTP transport's `send_message` completes the round trip but
returns `None`, discarding the reply, so `send_request` on an HTTP client
times out even when the peer answers correctly; only the unsupported-receive
part of the claim holds. -/
theorem c4_http_reply_discarded :
    HTTPTransport.send_message true c4Post
      (MCPRequest.model_dump
        { id := some (MCPId.str "1"), method := "tools/list" }) =
      Except.ok () ∧
    (MCPClient.send_request_http httpReadyState "tools/list" none c4Post).2 =
      RequestOutcome.failure
        (PyError.mcpClientError "Request timeout: tools/list") ∧
    HTTPTransport.receive_message =
      Except.error (PyError.notImplementedError
        "HTTP transport doesn't support receiving messages") :=
  ⟨rfl, rfl, rfl⟩

/-- C5 counterexample: a frame with `method` present and no `id` decodes to an
`MCPRequest` (with `id = none`), not to an `MCPNotification` as the claim
states. -/
theorem c5_counterexample :
    (WebSocketTransport.receive_message_decode notifFrame).map
        DecodedMessage.form = some MessageForm.requestForm ∧
    isNotificationDecode
      (WebSocketTransport.receive_message_decode notifFrame) = false :=
  ⟨rfl, rfl⟩

/-- C5 amended: decoding is by field presence but yields only two envelope
forms: presence of `result` or `error` gives a Response, and any other frame
(with or without an `id`) validates as a Request; no frame ever decodes to an
`MCPNotification`. -/
theorem c5_decode_two_forms (j : JValue) :
    (WebSocketTransport.receive_message_decode j).map DecodedMessage.form =
      (WebSocketTransport.receive_message_decode j).map (fun _ =>
        if (j.lookup "result").isSome || (j.lookup "error").isSome then
          MessageForm.responseForm
        else MessageForm.requestForm) := by
  unfold WebSocketTransport.receive_message_decode
  by_cases h : ((j.lookup "result").isSome || (j.lookup "error").isSome) = true
  · rw [if_pos h, if_pos h]
    cases MCPResponse.model_validate j <;> simp [DecodedMessage.form, h]
  · rw [if_neg h, if_neg h]
    cases MCPRequest.model_validate j <;> simp [DecodedMessage.form, h]

/-- C6 counterexample: constructing a client for the repository's canonical
stdio config fails in `_create_transport` with `MCPClientError` instead of
selecting a stdio transport. -/
theorem c6_counterexample :
    MCPClient.create_transport example_config =
      Except.error (PyError.mcpClientError "Unsupported transport: stdio") :=
  rfl

/-- C6 amended: `client.py` implements exactly two transports; an HTTP or
WebSocket config selects the matching implementation, and a stdio config makes
`_create_transport` raise `MCPClientError`. -/
theorem c6_two_transport_impls (c : MCPServiceConfig) :
    ((MCPClient.create_transport c).toOption.map MCPTransportImpl.kind =
      if c.transport = TransportType.stdio then none else some c.transport) ∧
    (MCPClient.create_transport c).isOk = !(c.transport == TransportType.stdio) := by
  cases h : c.transport <;>
    simp [MCPClient.create_transport, h, MCPTransportImpl.kind, Except.isOk,
      Except.toOption, Except.toBool, beq_iff_eq]

/-- C9: over every interleaving of client operations, the ids handed out by
the strictly increasing counter in `_next_request_id` are pairwise distinct,
and the key set of the pending-request map never holds a duplicate. -/
theorem c9_request_ids_unique (cfg : MCPServiceConfig) (ops : List ClientOp) :
    ((initClient cfg).applyOps ops).issued.Nodup ∧
    ((initClient cfg).applyOps ops).pending.Nodup := by
  have hinv : idInvariant ((initClient cfg).applyOps ops) :=
    idInvariant_applyOps ops (initClient cfg) ⟨rfl, List.Sublist.refl _⟩
  obtain ⟨hiss, hpend⟩ := hinv
  have hnd : ((initClient cfg).applyOps ops).issued.Nodup := by
    rw [hiss, List.nodup_reverse]
    exact (List.nodup_range' _ _).map natRepr_injective
  exact ⟨hnd, hpend.nodup hnd⟩

/-! ### Manager-side claim theorems -/

def csEffects :
    Except PyError (ManagerState × Bool × List ConnectEffect) →
      List ConnectEffect
  | .ok r => r.2.2
  | .error _ => []

/-- A registry holding exactly the enabled HTTP service `http-svc`. -/
def c2m : ManagerState := { services := [("http-svc", httpConfig)], clients := [] }

/-- A connect environment whose first attempt fails with a transport error and
whose second attempt would succeed. -/
def attemptsOnceFail : Nat → Except PyError Unit := fun k =>
  if k = 1 then Except.error (PyError.otherError "connection refused") else Except.ok ()

/-- C2 counterexample: for a service whose config carries `retry_count = 3`,
`connect_service` makes exactly one `connect()` attempt and returns false,
even though a second attempt would have succeeded — there is no retry loop
and no backoff. -/
theorem c2_counterexample :
    MCPManager.connect_service c2m "http-svc" attemptsOnceFail =
      Except.ok (c2m, false,
        [ConnectEffect.constructClient "http-svc",
         ConnectEffect.connectAttempt "http-svc"]) ∧
    connectAttempts (csEffects
      (MCPManager.connect_service c2m "http-svc" attemptsOnceFail)) = 1 ∧
    httpConfig.retry_count = 3 ∧
    attemptsOnceFail 2 = Except.ok () :=
  ⟨rfl, rfl, rfl, rfl⟩

/-- C2 amended: for a fresh, existing, enabled service `connect_service` makes
exactly one `connect()` attempt (none for a stdio config, whose construction
already raises and is caught), records the client and returns true on success,
returns false on failure, and in every case returns normally — the
`except MCPClientError` clause together with `MCPClient.connect` wrapping
every cause in `MCPClientError` means no connection failure ever propagates. -/
theorem c2_single_attempt_never_raises (m : ManagerState) (name : String)
    (attempts : Nat → Except PyError Unit) (config : MCPServiceConfig)
    (hclient : m.clients.lookup name = none)
    (hconfig : m.services.lookup name = some config)
    (henabled : config.enabled = true) :
    MCPManager.connect_service m name attempts =
      Except.ok (if config.transport = TransportType.stdio then
          (m, false, [ConnectEffect.constructClient name])
        else if (attempts 1).isOk then
          ({ m with clients := dictInsert m.clients name (mkConnectedClient config) },
           true,
           [ConnectEffect.constructClient name, ConnectEffect.connectAttempt name])
        else
          (m, false,
           [ConnectEffect.constructClient name, ConnectEffect.connectAttempt name])) ∧
    connectAttempts (csEffects
      (MCPManager.connect_service m name attempts)) ≤ 1 := by
  have hmain : MCPManager.connect_service m name attempts =
      Except.ok (if config.transport = TransportType.stdio then
          (m, false, [ConnectEffect.constructClient name])
        else if (attempts 1).isOk then
          ({ m with clients := dictInsert m.clients name (mkConnectedClient config) },
           true,
           [ConnectEffect.constructClient name, ConnectEffect.connectAttempt name])
        else
          (m, false,
           [ConnectEffect.constructClient name, ConnectEffect.connectAttempt name])) := by
    simp only [MCPManager.connect_service, hclient, hconfig, henabled,
      Bool.true_eq_false, if_false]
    cases htr : config.transport with
    | stdio =>
      simp [MCPClient.create_transport, htr]
    | http =>
      simp only [MCPClient.create_transport, htr, if_pos rfl]
      cases ha : attempts 1 with
      | ok u =>
        cases u
        simp [MCPClient.connect, ha, Except.isOk, Except.toBool]
      | error e =>
        simp [MCPClient.connect, ha, Except.isOk, Except.toBool]
    | websocket =>
      simp only [MCPClient.create_transport, htr]
      have hne : (TransportType.websocket = TransportType.http) = False := by
        simp
      simp only [hne, if_false, if_pos rfl]
      cases ha : attempts 1 with
      | ok u =>
        cases u
        simp [MCPClient.connect, ha, Except.isOk, Except.toBool]
      | error e =>
        simp [MCPClient.connect, ha, Except.isOk, Except.toBool]
  refine ⟨hmain, ?_⟩
  rw [hmain]
  by_cases h1 : config.transport = TransportType.stdio
  · simp [h1, csEffects, connectAttempts]
  · by_cases h2 : (attempts 1).isOk <;>
      simp [h1, h2, csEffects, connectAttempts]

/-- C2 witness: the amended theorem applied to the concrete registry `c2m`
with an environment whose single attempt succeeds. -/
theorem c2_single_attempt_never_raises_witness :
    MCPManager.connect_service c2m "http-svc" (fun _ => Except.ok ()) =
      Except.ok (if httpConfig.transport = TransportType.stdio then
          (c2m, false, [ConnectEffect.constructClient "http-svc"])
        else if ((fun _ => Except.ok ()) 1 :
            Except PyError Unit).isOk then
          ({ c2m with clients := dictInsert c2m.clients "http-svc" (mkConnectedClient httpConfig) },
           true,
           [ConnectEffect.constructClient "http-svc",
            ConnectEffect.connectAttempt "http-svc"])
        else
          (c2m, false,
           [ConnectEffect.constructClient "http-svc",
            ConnectEffect.connectAttempt "http-svc"])) ∧
    connectAttempts (csEffects
      (MCPManager.connect_service c2m "http-svc" (fun _ => Except.ok ()))) ≤ 1 :=
  c2_single_attempt_never_raises c2m "http-svc" (fun _ => Except.ok ())
    httpConfig rfl rfl rfl

/-- C7: `connect_service` short-circuits on an existing client, returning its
connectedness with no state change and no connection attempt; and when the
config is missing or disabled it returns false, again with no client created
and no attempt made. -/
theorem c7_short_circuit_and_guards (m : ManagerState) (name : String)
    (attempts : Nat → Except PyError Unit) :
    (∀ c, m.clients.lookup name = some c →
      MCPManager.connect_service m name attempts =
        Except.ok (m, c.is_connected, [])) ∧
    (m.clients.lookup name = none → m.services.lookup name = none →
      MCPManager.connect_service m name attempts = Except.ok (m, false, [])) ∧
    (∀ config, m.clients.lookup name = none →
      m.services.lookup name = some config → config.enabled = false →
      MCPManager.connect_service m name attempts = Except.ok (m, false, [])) := by
  refine ⟨?_, ?_, ?_⟩
  · intro c hc
    simp [MCPManager.connect_service, hc]
  · intro h1 h2
    simp [MCPManager.connect_service, h1, h2]
  · intro config h1 h2 h3
    simp [MCPManager.connect_service, h1, h2, h3]

/-- A disabled service config. -/
def disabledConfig : MCPServiceConfig :=
  { name := "x", description := "disabled service",
    transport := TransportType.http, endpoint := "http://localhost:1234",
    enabled := false }

def c7mClients : ManagerState :=
  { services := [], clients := [("a", mkConnectedClient httpConfig)] }

def c7mDisabled : ManagerState :=
  { services := [("x", disabledConfig)], clients := [] }

/-- C7 witness: the three guard branches at concrete registries. -/
theorem c7_short_circuit_and_guards_witness :
    MCPManager.connect_service c7mClients "a" (fun _ => Except.ok ()) =
      Except.ok (c7mClients, true, []) ∧
    MCPManager.connect_service freshManager "x" (fun _ => Except.ok ()) =
      Except.ok (freshManager, false, []) ∧
    MCPManager.connect_service c7mDisabled "x" (fun _ => Except.ok ()) =
      Except.ok (c7mDisabled, false, []) := by
  refine ⟨?_, ?_, ?_⟩
  · exact (c7_short_circuit_and_guards c7mClients "a" (fun _ => Except.ok ())).1
      (mkConnectedClient httpConfig) rfl
  · exact (c7_short_circuit_and_guards freshManager "x"
      (fun _ => Except.ok ())).2.1 rfl rfl
  · exact (c7_short_circuit_and_guards c7mDisabled "x"
      (fun _ => Except.ok ())).2.2 disabledConfig rfl rfl rfl

/-- C8: adding a service writes `<name>.json`, and reloading from that
directory on a fresh registry instance reproduces a `ServiceConfig` equal to
the one added: the persistence round trip is the identity. -/
theorem c8_persistence_round_trip (config : MCPServiceConfig) :
    MCPManager.get_service
      (MCPManager.load_services
        (MCPManager.add_service { dirExists := true, files := [] }
          freshManager config).1 freshManager).2 config.name = some config := by
  simp [MCPManager.add_service, MCPManager.load_services, dictInsert,
    MCPManager.get_service, freshManager, model_validate_model_dump,
    List.lookup, List.isEmpty]

/-- C10: when the config directory is absent or holds no JSON files,
`load_services` writes the example config file but returns without touching
the in-memory map: the manager state is unchanged, and on a fresh manager
`list_services` stays empty and `get_service "example-filesystem"` is absent
until another `load_services` call. -/
theorem c10_seed_without_loading (fs : FileSystem) (m : ManagerState)
    (h : fs.dirExists = false ∨ fs.files.isEmpty = true) :
    (MCPManager.load_services fs m).2 = m ∧
    (MCPManager.load_services fs m).1.files.lookup "example-filesystem.json" =
      some example_config.model_dump ∧
    (m.services = [] →
      MCPManager.list_services (MCPManager.load_services fs m).2 = [] ∧
      MCPManager.get_service (MCPManager.load_services fs m).2
        "example-filesystem" = none) := by
  have hbranch : MCPManager.load_services fs m =
      (MCPManager.create_example_config
        (if fs.dirExists = false then { fs with dirExists := true } else fs), m) := by
    by_cases hd : fs.dirExists = false
    · simp [MCPManager.load_services, hd]
    · have he : fs.files.isEmpty = true := by
        rcases h with h1 | h2
        · exact absurd h1 hd
        · exact h2
      simp [MCPManager.load_services, hd, he]
  refine ⟨by rw [hbranch], ?_, ?_⟩
  · rw [hbranch]
    exact lookup_dictInsert _ _ _
  · intro hm
    rw [hbranch]
    simp [MCPManager.list_services, MCPManager.get_service, hm, List.lookup]

/-- C10 witness: a fresh manager over an absent config directory. -/
theorem c10_seed_without_loading_witness :
    (MCPManager.load_services { dirExists := false, files := [] }
        freshManager).2 = freshManager ∧
    (MCPManager.load_services { dirExists := false, files := [] }
        freshManager).1.files.lookup "example-filesystem.json" =
      some example_config.model_dump ∧
    (freshManager.services = [] →
      MCPManager.list_services
        (MCPManager.load_services { dirExists := false, files := [] }
          freshManager).2 = [] ∧
      MCPManager.get_service
        (MCPManager.load_services { dirExists := false, files := [] }
          freshManager).2 "example-filesystem" = none) :=
  c10_seed_without_loading { dirExists := false, files := [] } freshManager
    (Or.inl rfl)

end Shen
